import Mathlib

/-!
Verification of the "new manager bounce" analysis script
(`New_manager_bounce_PL.py`).

Dates are encoded as natural numbers in `YYYYMMDD` form, so the numeric
order on `Nat` coincides with chronological order on calendar dates (the
script compares `datetime` values, whose order is exactly this one).
Scores are natural numbers, team names are strings.
The sentinel default second hire date `"1753-01-01"` is the number
`17530101`.
-/

namespace NMB

/-- One row of the fetched match dataframe: date (encoded `YYYYMMDD`),
home/away team names and scores. -/
structure Match where
  match_date : Nat
  home_team : String
  away_team : String
  home_score : Nat
  away_score : Nat
deriving DecidableEq

/-- A team dataframe after `add_managerial_change_column`: the original
rows plus, when one was added, the `is_manager_bounce` column (`none`
models the column being absent). -/
structure LabeledDF where
  rows : List Match
  is_manager_bounce : Option (List Nat)
deriving DecidableEq

/-- A team dataframe after `add_points_from_match_column`: rows, the
optional `is_manager_bounce` column, and the `points_from_match` column. -/
structure FullDF where
  rows : List Match
  is_manager_bounce : Option (List Nat)
  points_from_match : List Nat
deriving DecidableEq

/-- Pandas positional indexing `series.iloc[i]`: a nonnegative index reads
from the front, a negative index reads from the back; out of range raises
(modelled as `none`). -/
def iloc {α : Type} (l : List α) (i : Int) : Option α :=
  if 0 ≤ i then l.get? i.toNat
  else if (-i).toNat ≤ l.length then l.get? (l.length - (-i).toNat)
  else none

/-- The value `np.select([not_bounce, is_bounce], [0, 1])` assigns to a
match dated `d` in the single-hire branch (lines 80-85 of the script):
the first listed condition wins, the default is `0`. -/
def single_hire_label (first_manager_hire_date last_match_date_of_bounce d : Nat) : Nat :=
  if d < first_manager_hire_date ∨ last_match_date_of_bounce < d then 0
  else if first_manager_hire_date ≤ d ∧ d ≤ last_match_date_of_bounce then 1
  else 0

/-- The value `np.select([not_bounce, is_bounce], [0, 1])` assigns to a
match dated `d` in the two-hire branch (lines 95-104 of the script). -/
def two_hire_label (h1 last1 h2 last2 d : Nat) : Nat :=
  if d < h1 ∨ (last1 < d ∧ d < h2) ∨ last2 < d then 0
  else if (h1 ≤ d ∧ d ≤ last1) ∨ (h2 ≤ d ∧ d ≤ last2) then 1
  else 0

/-- `add_managerial_change_column` (script lines 62-106).  With one hired
manager the window end is the `N`-th match date strictly after the first
hire date; with two it is the `N`-th match date on/after each hire date;
`iloc` failing is the pandas `IndexError` (`none`).  With any other
manager count the dataframe is returned unchanged, without the column. -/
def add_managerial_change_column (df : List Match)
    (first_manager_hire_date second_manager_hire_date
     number_hired_managers number_of_matches_in_bounce : Nat) : Option LabeledDF :=
  if number_hired_managers = 1 then
    match iloc ((df.map Match.match_date).filter
        (fun d => decide (first_manager_hire_date < d)))
        ((number_of_matches_in_bounce : Int) - 1) with
    | none => none
    | some last_match_date_of_bounce =>
        some ⟨df, some (df.map (fun r =>
          single_hire_label first_manager_hire_date last_match_date_of_bounce r.match_date))⟩
  else if number_hired_managers = 2 then
    match iloc ((df.map Match.match_date).filter
        (fun d => decide (first_manager_hire_date ≤ d)))
        ((number_of_matches_in_bounce : Int) - 1) with
    | none => none
    | some last1 =>
        match iloc ((df.map Match.match_date).filter
            (fun d => decide (second_manager_hire_date ≤ d)))
            ((number_of_matches_in_bounce : Int) - 1) with
        | none => none
        | some last2 =>
            some ⟨df, some (df.map (fun r =>
              two_hire_label first_manager_hire_date last1
                second_manager_hire_date last2 r.match_date))⟩
  else
    some ⟨df, none⟩

/-- The per-row body of the `iterrows` loop in `add_points_from_match_column`
(script lines 121-149): the column is initialised to `0`, the home branch
runs first, the away branch only when the team is not the home side, and a
row involving neither side is left at the initial `0`. -/
def points_from_match_value (team_name : String) (r : Match) : Nat :=
  if r.home_team = team_name then
    if r.home_score > r.away_score then 3
    else if r.home_score = r.away_score then 1
    else 0
  else if r.away_team = team_name then
    if r.away_score > r.home_score then 3
    else if r.home_score = r.away_score then 1
    else 0
  else 0

/-- `add_points_from_match_column` (script lines 111-151): appends the
`points_from_match` column, one value per row in row order, leaving the
existing columns untouched. -/
def add_points_from_match_column (df : LabeledDF) (team_name : String) : FullDF :=
  ⟨df.rows, df.is_manager_bounce, df.rows.map (points_from_match_value team_name)⟩

/-- `extract_teams_matches_during_season` (script lines 38-57), applied to
an already fetched season dataframe: keep the rows where the team plays at
home or away, then sort by match date (`sort_values(by="match_date")`). -/
def extract_teams_matches_during_season (all_matches : List Match)
    (team_name : String) : List Match :=
  List.insertionSort (fun a b => a.match_date ≤ b.match_date)
    (all_matches.filter (fun r =>
      decide (r.home_team = team_name ∨ r.away_team = team_name)))

/-- `add_manager_change_and_points_won_columns_to_df` (script lines
156-179), parameterised by the fetched season data (the script fetches it
from the external provider): extract the team's matches, add the bounce
column, then the points column. -/
def add_manager_change_and_points_won_columns_to_df (all_matches : List Match)
    (team_name : String)
    (first_manager_hire_date second_manager_hire_date
     number_hired_managers number_of_matches_in_bounce : Nat) : Option FullDF :=
  (add_managerial_change_column
      (extract_teams_matches_during_season all_matches team_name)
      first_manager_hire_date second_manager_hire_date
      number_hired_managers number_of_matches_in_bounce).map
    (fun ldf => add_points_from_match_column ldf team_name)

/-- The bounce window the specification describes: the `N` chronologically
earliest match dates on/after the hire date (the date list is passed in
chronological order). -/
def bounce_window (dates : List Nat) (hire_date N : Nat) : List Nat :=
  (dates.filter (fun d => decide (hire_date ≤ d))).take N

/-- `np.mean` of a list of match points, as an exact rational. -/
def npMean (l : List Nat) : ℚ := (l.sum : ℚ) / l.length

/-- `df.loc[df["is_manager_bounce"] == v, "points_from_match"].tolist()`
(script lines 193-194 and the analogous extractions): the points of the
rows whose bounce label equals `v`, in row order. -/
def loc_points_with_label (df : FullDF) (v : Nat) : List Nat :=
  match df.is_manager_bounce with
  | none => []
  | some labels =>
      ((labels.zip df.points_from_match).filter (fun p => decide (p.1 = v))).map Prod.snd

/-- Spec-side description for the chart claim: the `points_from_match`
values of exactly the matches carrying bounce label `v`, walking the two
columns in parallel row order. -/
def spec_group_points (labels points : List Nat) (v : Nat) : List Nat :=
  match labels, points with
  | l :: ls, p :: ps =>
      if l = v then p :: spec_group_points ls ps v else spec_group_points ls ps v
  | _, _ => []

/-- Concrete team dataframe exhibiting a match played exactly on the hire
date: dates `1..8`, every row involving team `"T"`. -/
def hire_day_df : List Match :=
  [⟨1, "T", "A", 0, 0⟩, ⟨2, "T", "B", 0, 0⟩, ⟨3, "C", "T", 0, 0⟩, ⟨4, "T", "D", 0, 0⟩,
   ⟨5, "E", "T", 0, 0⟩, ⟨6, "T", "F", 0, 0⟩, ⟨7, "G", "T", 0, 0⟩, ⟨8, "T", "H", 0, 0⟩]

/-- Concrete team dataframe with 18 match dates `1..18`, used to exercise
the two-hire branch with hire dates `3` and `12`. -/
def two_hire_df : List Match :=
  [⟨1, "T", "X", 0, 0⟩, ⟨2, "T", "X", 0, 0⟩, ⟨3, "T", "X", 0, 0⟩, ⟨4, "T", "X", 0, 0⟩,
   ⟨5, "T", "X", 0, 0⟩, ⟨6, "T", "X", 0, 0⟩, ⟨7, "T", "X", 0, 0⟩, ⟨8, "T", "X", 0, 0⟩,
   ⟨9, "T", "X", 0, 0⟩, ⟨10, "T", "X", 0, 0⟩, ⟨11, "T", "X", 0, 0⟩, ⟨12, "T", "X", 0, 0⟩,
   ⟨13, "T", "X", 0, 0⟩, ⟨14, "T", "X", 0, 0⟩, ⟨15, "T", "X", 0, 0⟩, ⟨16, "T", "X", 0, 0⟩,
   ⟨17, "T", "X", 0, 0⟩, ⟨18, "T", "X", 0, 0⟩]

/-- Concrete fetched season dataframe: eight Sunderland matches with
realistic 2015/16 dates around the 2015-10-09 hire date, plus one match
not involving Sunderland. -/
def sunderland_season_df : List Match :=
  [⟨20150808, "Sunderland", "A", 0, 0⟩, ⟨20150815, "B", "Sunderland", 1, 1⟩,
   ⟨20150905, "Other1", "Other2", 2, 0⟩, ⟨20151017, "Sunderland", "C", 2, 2⟩,
   ⟨20151025, "D", "Sunderland", 0, 3⟩, ⟨20151101, "Sunderland", "E", 1, 0⟩,
   ⟨20151107, "F", "Sunderland", 2, 1⟩, ⟨20151121, "Sunderland", "G", 0, 1⟩,
   ⟨20151128, "H", "Sunderland", 0, 0⟩]

/-- Concrete labelled dataframe for the points-rule witness: team `"T"`
wins at home in the first row. -/
def points_rule_df : LabeledDF :=
  ⟨[⟨1, "T", "A", 2, 0⟩, ⟨2, "A", "T", 1, 1⟩, ⟨3, "T", "A", 0, 2⟩], none⟩

/-- Concrete team dataframe with only two matches, both before date `5`. -/
def short_df : List Match :=
  [⟨1, "T", "A", 0, 0⟩, ⟨2, "A", "T", 0, 0⟩]

/-- Concrete labelled dataframe whose single row involves neither `"T"`
side. -/
def stranger_df : LabeledDF := ⟨[⟨1, "X", "Y", 2, 0⟩], none⟩

/-- Concrete fully labelled dataframe for the chart witness: labels
`[1, 0, 1]` and points `[3, 0, 1]`. -/
def chart_df : FullDF :=
  ⟨[⟨1, "T", "A", 2, 0⟩, ⟨2, "A", "T", 2, 0⟩, ⟨3, "A", "T", 1, 1⟩],
   some [1, 0, 1], [3, 0, 1]⟩

/-- Concrete team dataframe for the frame-preservation witness. -/
def frame_df : List Match := [⟨1, "T", "A", 2, 0⟩, ⟨2, "A", "T", 1, 1⟩]

section Helpers

/-- Reading a member of a prefix off its index. -/
lemma mem_take_exists {α : Type} (l : List α) (n : Nat) (a : α) (h : a ∈ l.take n) :
    ∃ i : Fin l.length, i.1 < n ∧ l.get i = a := by
  induction l generalizing n with
  | nil => simp at h
  | cons x xs ih =>
    cases n with
    | zero => simp at h
    | succ m =>
      rw [List.take_succ_cons] at h
      rcases List.mem_cons.mp h with rfl | hmem
      · exact ⟨⟨0, by simp⟩, Nat.succ_pos m, rfl⟩
      · obtain ⟨i, hi, hget⟩ := ih m hmem
        refine ⟨⟨i.1 + 1, by simp [Nat.succ_lt_succ i.2]⟩, ?_, by simpa using hget⟩
        show i.1 + 1 < m + 1
        omega

/-- An element whose index is below `n` lies in the `n`-prefix. -/
lemma get_mem_take {α : Type} (l : List α) (n : Nat) (i : Fin l.length) (hi : i.1 < n) :
    l.get i ∈ l.take n := by
  induction l generalizing n with
  | nil => exact absurd i.2 (by simp)
  | cons x xs ih =>
    cases n with
    | zero => omega
    | succ m =>
      rw [List.take_succ_cons]
      rcases i with ⟨iv, hv⟩
      cases iv with
      | zero => exact List.mem_cons_self _ _
      | succ j =>
        have hj : j < m := by
          have : j + 1 < m + 1 := hi
          omega
        exact List.mem_cons_of_mem _
          (by simpa using ih m ⟨j, by simpa using hv⟩ hj)

/-- A strictly sorted list of dates is monotone in its indices. -/
lemma pairwise_lt_get_le (l : List Nat) (hs : l.Pairwise (· < ·)) (i j : Fin l.length)
    (hij : i.1 ≤ j.1) : l.get i ≤ l.get j := by
  rcases Nat.lt_or_ge i.1 j.1 with hlt | hge
  · exact le_of_lt (List.pairwise_iff_get.mp hs i j hlt)
  · have : i = j := Fin.ext (by omega)
    subst this
    exact le_rfl

/-- In a strictly sorted list, membership of the `(n+1)`-prefix is exactly
being bounded by the entry at index `n`. -/
lemma mem_take_iff_le_get (l : List Nat) (hs : l.Pairwise (· < ·)) (n : Nat)
    (hn : n < l.length) (d : Nat) (hd : d ∈ l) :
    d ∈ l.take (n + 1) ↔ d ≤ l.get ⟨n, hn⟩ := by
  constructor
  · intro hmem
    obtain ⟨i, hi, hget⟩ := mem_take_exists l (n + 1) d hmem
    have hin : i.1 ≤ n := Nat.lt_succ_iff.mp hi
    calc d = l.get i := hget.symm
    _ ≤ l.get ⟨n, hn⟩ := pairwise_lt_get_le l hs i ⟨n, hn⟩ hin
  · intro hle
    obtain ⟨i, hget⟩ := List.mem_iff_get.mp hd
    rcases Nat.lt_or_ge i.1 (n + 1) with hlt | hge
    · rw [← hget]
      exact get_mem_take l (n + 1) i hlt
    · exfalso
      have hni : n < i.1 := by omega
      have : l.get ⟨n, hn⟩ < l.get i :=
        List.pairwise_iff_get.mp hs ⟨n, hn⟩ i hni
      omega

/-- `iloc` at the pandas index `N - 1` for a positive window size `N`. -/
lemma iloc_nat_sub_one {α : Type} (l : List α) (N : Nat) (hN : 1 ≤ N) :
    iloc l ((N : Int) - 1) = l.get? (N - 1) := by
  unfold iloc
  rw [if_pos (by omega)]
  congr 1
  omega

/-- Filtering with a pointwise stronger predicate yields a sublist of the
weaker filter. -/
lemma filter_imp_sublist {α : Type} (l : List α) (p q : α → Bool)
    (h : ∀ a, p a = true → q a = true) : (l.filter p).Sublist (l.filter q) :=
  List.monotone_filter_right l h

/-- The single-hire branch of `add_managerial_change_column`, unfolded. -/
lemma add_managerial_change_column_one (df : List Match) (h1 h2 N : Nat) :
    add_managerial_change_column df h1 h2 1 N =
      match iloc ((df.map Match.match_date).filter (fun d => decide (h1 < d)))
          ((N : Int) - 1) with
      | none => none
      | some last => some ⟨df, some (df.map (fun r =>
          single_hire_label h1 last r.match_date))⟩ := rfl

/-- The two-hire branch of `add_managerial_change_column`, unfolded. -/
lemma add_managerial_change_column_two (df : List Match) (h1 h2 N : Nat) :
    add_managerial_change_column df h1 h2 2 N =
      match iloc ((df.map Match.match_date).filter (fun d => decide (h1 ≤ d)))
          ((N : Int) - 1) with
      | none => none
      | some last1 =>
          match iloc ((df.map Match.match_date).filter (fun d => decide (h2 ≤ d)))
              ((N : Int) - 1) with
          | none => none
          | some last2 => some ⟨df, some (df.map (fun r =>
              two_hire_label h1 last1 h2 last2 r.match_date))⟩ := rfl

/-- `mem_take_iff_le_get` restated with a positive prefix length `N`. -/
lemma mem_take_iff_le_get_pos (l : List Nat) (hs : l.Pairwise (· < ·)) (N : Nat)
    (hN : 1 ≤ N) (hlen : N - 1 < l.length) (d : Nat) (hd : d ∈ l) :
    d ∈ l.take N ↔ d ≤ l.get ⟨N - 1, hlen⟩ := by
  have h := mem_take_iff_le_get l hs (N - 1) hlen d hd
  rwa [Nat.sub_add_cancel hN] at h

/-- Core window lemma: for a date of a strictly sorted date list, lying in
the spec's bounce window is the same as lying between the hire date and
the date the script reads with `iloc[N-1]` off the on/after filter. -/
lemma bounce_window_mem_iff (dates : List Nat) (h1 N : Nat)
    (hs : dates.Pairwise (· < ·)) (hN : 1 ≤ N)
    (hlen : N - 1 < (dates.filter (fun d => decide (h1 ≤ d))).length)
    (d : Nat) (hd : d ∈ dates) :
    d ∈ bounce_window dates h1 N ↔
      h1 ≤ d ∧ d ≤ (dates.filter (fun d => decide (h1 ≤ d))).get ⟨N - 1, hlen⟩ := by
  unfold bounce_window
  have hpw : (dates.filter (fun d => decide (h1 ≤ d))).Pairwise (· < ·) :=
    List.Pairwise.sublist (List.filter_sublist _) hs
  constructor
  · intro hmem
    have hdfs : d ∈ dates.filter (fun d => decide (h1 ≤ d)) :=
      (List.take_sublist _ _).subset hmem
    have hh1 : h1 ≤ d := by simpa using (List.mem_filter.mp hdfs).2
    exact ⟨hh1, (mem_take_iff_le_get_pos _ hpw N hN hlen d hdfs).mp hmem⟩
  · rintro ⟨hh1, hle⟩
    have hdfs : d ∈ dates.filter (fun d => decide (h1 ≤ d)) :=
      List.mem_filter.mpr ⟨hd, by simpa using hh1⟩
    exact (mem_take_iff_le_get_pos _ hpw N hN hlen d hdfs).mpr hle

/-- The date the script reads with `iloc[N-1]` lies in the spec's window. -/
lemma last_mem_bounce_window (dates : List Nat) (h1 N : Nat) (hN : 1 ≤ N)
    (hlen : N - 1 < (dates.filter (fun d => decide (h1 ≤ d))).length) :
    (dates.filter (fun d => decide (h1 ≤ d))).get ⟨N - 1, hlen⟩
      ∈ bounce_window dates h1 N := by
  unfold bounce_window
  exact get_mem_take _ N ⟨N - 1, hlen⟩ (by show N - 1 < N; omega)

/-- The date the script reads with `iloc[N-1]` is on/after the hire date. -/
lemma hire_le_last (dates : List Nat) (h1 N : Nat)
    (hlen : N - 1 < (dates.filter (fun d => decide (h1 ≤ d))).length) :
    h1 ≤ (dates.filter (fun d => decide (h1 ≤ d))).get ⟨N - 1, hlen⟩ := by
  have hm := List.get_mem (dates.filter (fun d => decide (h1 ≤ d))) (N - 1) hlen
  simpa using (List.mem_filter.mp hm).2

/-- The single-hire `np.select` value coincides with window membership
when no match is dated exactly on the hire date. -/
lemma single_hire_label_eq_window (dates : List Nat) (h1 N : Nat)
    (hs : dates.Pairwise (· < ·)) (hN : 1 ≤ N)
    (hlen : N - 1 < (dates.filter (fun d => decide (h1 ≤ d))).length)
    (d : Nat) (hd : d ∈ dates) :
    single_hire_label h1 ((dates.filter (fun d => decide (h1 ≤ d))).get ⟨N - 1, hlen⟩) d
      = if d ∈ bounce_window dates h1 N then 1 else 0 := by
  by_cases hmem : d ∈ bounce_window dates h1 N
  · obtain ⟨hh1, hle⟩ := (bounce_window_mem_iff dates h1 N hs hN hlen d hd).mp hmem
    rw [if_pos hmem]
    unfold single_hire_label
    rw [if_neg (by omega), if_pos ⟨hh1, hle⟩]
  · rw [if_neg hmem]
    unfold single_hire_label
    have hnb : ¬(h1 ≤ d ∧ d ≤ (dates.filter (fun d => decide (h1 ≤ d))).get ⟨N - 1, hlen⟩) :=
      fun hb => hmem ((bounce_window_mem_iff dates h1 N hs hN hlen d hd).mpr hb)
    by_cases hc0 : d < h1 ∨ (dates.filter (fun d => decide (h1 ≤ d))).get ⟨N - 1, hlen⟩ < d
    · rw [if_pos hc0]
    · rw [if_neg hc0, if_neg hnb]

/-- The two-hire `np.select` value coincides with membership of the union
of the two windows, when the first window ends before the second hire. -/
lemma two_hire_label_eq_window (dates : List Nat) (h1 h2 N : Nat)
    (hs : dates.Pairwise (· < ·)) (hN : 1 ≤ N)
    (hlen1 : N - 1 < (dates.filter (fun d => decide (h1 ≤ d))).length)
    (hlen2 : N - 1 < (dates.filter (fun d => decide (h2 ≤ d))).length)
    (hnov : ∀ d ∈ bounce_window dates h1 N, d < h2)
    (d : Nat) (hd : d ∈ dates) :
    two_hire_label h1 ((dates.filter (fun d => decide (h1 ≤ d))).get ⟨N - 1, hlen1⟩)
        h2 ((dates.filter (fun d => decide (h2 ≤ d))).get ⟨N - 1, hlen2⟩) d
      = if d ∈ bounce_window dates h1 N ∨ d ∈ bounce_window dates h2 N then 1 else 0 := by
  have hiff1 := bounce_window_mem_iff dates h1 N hs hN hlen1 d hd
  have hiff2 := bounce_window_mem_iff dates h2 N hs hN hlen2 d hd
  have hl1h2 : (dates.filter (fun d => decide (h1 ≤ d))).get ⟨N - 1, hlen1⟩ < h2 :=
    hnov _ (last_mem_bounce_window dates h1 N hN hlen1)
  have hh1l1 := hire_le_last dates h1 N hlen1
  have hh2l2 := hire_le_last dates h2 N hlen2
  by_cases hmem : d ∈ bounce_window dates h1 N ∨ d ∈ bounce_window dates h2 N
  · rw [if_pos hmem]
    unfold two_hire_label
    rcases hmem with hm1 | hm2
    · obtain ⟨ha, hb⟩ := hiff1.mp hm1
      rw [if_neg (by omega), if_pos (by omega)]
    · obtain ⟨ha, hb⟩ := hiff2.mp hm2
      rw [if_neg (by omega), if_pos (by omega)]
  · rw [if_neg hmem]
    unfold two_hire_label
    have hnb : ¬((h1 ≤ d ∧ d ≤ (dates.filter (fun d => decide (h1 ≤ d))).get ⟨N - 1, hlen1⟩)
        ∨ (h2 ≤ d ∧ d ≤ (dates.filter (fun d => decide (h2 ≤ d))).get ⟨N - 1, hlen2⟩)) := by
      rintro (h | h)
      · exact hmem (Or.inl (hiff1.mpr h))
      · exact hmem (Or.inr (hiff2.mpr h))
    by_cases hc0 : d < h1
        ∨ ((dates.filter (fun d => decide (h1 ≤ d))).get ⟨N - 1, hlen1⟩ < d ∧ d < h2)
        ∨ (dates.filter (fun d => decide (h2 ≤ d))).get ⟨N - 1, hlen2⟩ < d
    · rw [if_pos hc0]
    · rw [if_neg hc0, if_neg hnb]

/-- Single-hire run of `add_managerial_change_column`, characterised
against the spec's window, assuming strictly sorted dates, no match dated
exactly on the hire date, and at least `N` matches on/after it. -/
lemma single_hire_spec (df : List Match) (h1 h2 N : Nat)
    (hs : (df.map Match.match_date).Pairwise (· < ·))
    (hne : ∀ d ∈ df.map Match.match_date, d ≠ h1)
    (hN : 1 ≤ N)
    (hc : N ≤ ((df.map Match.match_date).filter (fun d => decide (h1 ≤ d))).length) :
    add_managerial_change_column df h1 h2 1 N =
      some ⟨df, some (df.map (fun r =>
        if r.match_date ∈ bounce_window (df.map Match.match_date) h1 N
        then 1 else 0))⟩ := by
  have hfe : (df.map Match.match_date).filter (fun d => decide (h1 < d))
      = (df.map Match.match_date).filter (fun d => decide (h1 ≤ d)) :=
    List.filter_congr (fun d hd => decide_eq_decide.mpr (by have := hne d hd; omega))
  have hlen : N - 1 < ((df.map Match.match_date).filter (fun d => decide (h1 ≤ d))).length := by
    omega
  rw [add_managerial_change_column_one, hfe, iloc_nat_sub_one _ _ hN,
    List.get?_eq_get hlen]
  have hmap : df.map (fun r => single_hire_label h1
        (((df.map Match.match_date).filter (fun d => decide (h1 ≤ d))).get ⟨N - 1, hlen⟩)
        r.match_date)
      = df.map (fun r =>
        if r.match_date ∈ bounce_window (df.map Match.match_date) h1 N then 1 else 0) :=
    List.map_congr_left (fun r hr =>
      single_hire_label_eq_window (df.map Match.match_date) h1 N hs hN hlen r.match_date
        (List.mem_map_of_mem _ hr))
  exact congrArg (fun c => some ({ rows := df, is_manager_bounce := some c } : LabeledDF)) hmap

/-- Counting label `1` over an `if`-membership labelling. -/
lemma count_one_map_label (tm : List Match) (win : List Nat) :
    (tm.map (fun r => if r.match_date ∈ win then 1 else 0)).count 1
      = (tm.map Match.match_date).countP (fun d => decide (d ∈ win)) := by
  induction tm with
  | nil => rfl
  | cons r rest ih =>
    simp only [List.map_cons, List.count_cons, List.countP_cons, ih]
    by_cases h : r.match_date ∈ win
    · simp [h]
    · simp [h]

/-- Counting, in a duplicate-free list, the elements of one of its
sublists gives the sublist's length. -/
lemma countP_mem_eq_length (w l : List Nat) (hw : w.Sublist l) :
    l.Nodup → l.countP (fun d => decide (d ∈ w)) = w.length := by
  induction hw with
  | slnil => intro _; simp
  | cons a hsub ih =>
    intro hl
    rw [List.countP_cons, ih (List.Nodup.of_cons hl)]
    have ha : a ∉ _ := fun hm => (List.nodup_cons.mp hl).1 (hsub.subset hm)
    simp [ha]
  | cons₂ a hsub ih =>
    intro hl
    rw [List.countP_cons]
    have hcongr : ∀ l₁ : List Nat, List.countP (fun d => decide (d ∈ a :: l₁)) _
        = List.countP (fun d => decide (d ∈ l₁)) _ := fun l₁ =>
      List.countP_congr (fun x hx => by
        have hxa : x ≠ a := fun he => (List.nodup_cons.mp hl).1 (he ▸ hx)
        simp [List.mem_cons, hxa])
    rw [hcongr, ih (List.Nodup.of_cons hl)]
    simp

/-- The script's `.loc` points extraction agrees with the spec's
description of the label group. -/
lemma loc_points_eq_spec_group (df : FullDF) (labels : List Nat) (v : Nat)
    (hl : df.is_manager_bounce = some labels) :
    loc_points_with_label df v = spec_group_points labels df.points_from_match v := by
  unfold loc_points_with_label
  rw [hl]
  generalize df.points_from_match = pts
  show ((labels.zip pts).filter (fun p => decide (p.1 = v))).map Prod.snd
      = spec_group_points labels pts v
  clear hl
  induction labels generalizing pts with
  | nil => cases pts <;> rfl
  | cons l ls ih =>
    cases pts with
    | nil => rfl
    | cons p ps =>
      simp only [List.zip_cons_cons, List.filter_cons]
      by_cases h : l = v
      · simp [h, spec_group_points, ih]
      · simp [h, spec_group_points, ih]

end Helpers

/-- Claim C1 (evaluation at the failing input): the claim says a single-hire
run labels exactly `N = 5` matches, the chronologically earliest with date
on/after the hire date.  On `hire_day_df` (dates `1..8`) with hire date `2`
— a match is played exactly on the hire date — the code labels six matches
(dates `2` through `7`), because the window end is read off the matches
strictly after the hire date while the bounce condition is inclusive. -/
theorem C1_hire_date_match_eval :
    (add_managerial_change_column hire_day_df 2 17530101 1 5).map
        LabeledDF.is_manager_bounce = some (some [0, 1, 1, 1, 1, 1, 1, 0])
    ∧ (add_managerial_change_column hire_day_df 2 17530101 1 5).map
        (fun ldf => (ldf.is_manager_bounce.getD []).count 1) = some 6 :=
  ⟨by decide, by decide⟩

/-- Claim C2: on a chronologically (strictly) sorted team match list, with
at least `N ≥ 1` matches on/after each hire date and the first window
ending strictly before the second hire date, the two-hire branch labels
`1` exactly the union of the two independent windows — each the `N`
chronologically earliest matches on/after its hire date — and `0`
everywhere else; no row is double-labelled since each row receives the
single `np.select` value. -/
theorem C2_two_hire_window_union (df : List Match) (h1 h2 N : Nat)
    (hs : (df.map Match.match_date).Pairwise (· < ·)) (hN : 1 ≤ N)
    (hc1 : N ≤ ((df.map Match.match_date).filter (fun d => decide (h1 ≤ d))).length)
    (hc2 : N ≤ ((df.map Match.match_date).filter (fun d => decide (h2 ≤ d))).length)
    (hnov : ∀ d ∈ bounce_window (df.map Match.match_date) h1 N, d < h2) :
    add_managerial_change_column df h1 h2 2 N =
      some ⟨df, some (df.map (fun r =>
        if r.match_date ∈ bounce_window (df.map Match.match_date) h1 N
            ∨ r.match_date ∈ bounce_window (df.map Match.match_date) h2 N
        then 1 else 0))⟩ := by
  have hlen1 : N - 1 < ((df.map Match.match_date).filter (fun d => decide (h1 ≤ d))).length := by
    omega
  have hlen2 : N - 1 < ((df.map Match.match_date).filter (fun d => decide (h2 ≤ d))).length := by
    omega
  rw [add_managerial_change_column_two, iloc_nat_sub_one _ _ hN, iloc_nat_sub_one _ _ hN,
    List.get?_eq_get hlen1, List.get?_eq_get hlen2]
  have hmap : df.map (fun r => two_hire_label h1
        (((df.map Match.match_date).filter (fun d => decide (h1 ≤ d))).get ⟨N - 1, hlen1⟩)
        h2
        (((df.map Match.match_date).filter (fun d => decide (h2 ≤ d))).get ⟨N - 1, hlen2⟩)
        r.match_date)
      = df.map (fun r =>
        if r.match_date ∈ bounce_window (df.map Match.match_date) h1 N
            ∨ r.match_date ∈ bounce_window (df.map Match.match_date) h2 N
        then 1 else 0) :=
    List.map_congr_left (fun r hr =>
      two_hire_label_eq_window (df.map Match.match_date) h1 h2 N hs hN hlen1 hlen2 hnov
        r.match_date (List.mem_map_of_mem _ hr))
  exact congrArg (fun c => some ({ rows := df, is_manager_bounce := some c } : LabeledDF)) hmap

/-- Witness for C2 at `two_hire_df` (dates `1..18`), hire dates `3` and
`12`, window size `5`. -/
theorem C2_two_hire_window_union_witness :
    add_managerial_change_column two_hire_df 3 12 2 5 =
      some ⟨two_hire_df, some (two_hire_df.map (fun r =>
        if r.match_date ∈ bounce_window (two_hire_df.map Match.match_date) 3 5
            ∨ r.match_date ∈ bounce_window (two_hire_df.map Match.match_date) 12 5
        then 1 else 0))⟩ :=
  C2_two_hire_window_union two_hire_df 3 12 5 (by decide) (by decide) (by decide) (by decide)
    (by decide)

/-- Claim C3: `add_points_from_match_column` writes a value in `{0, 1, 3}`
into every row, following the 3/1/0 rule for the home side when the named
team is the home team, and the symmetric rule when it is the away team
(the away branch only runs when the home branch did not, as in the
script's `elif`). -/
theorem C3_points_rule (df : LabeledDF) (team_name : String) (i : Nat) (r : Match) (p : Nat)
    (hr : df.rows.get? i = some r)
    (hp : (add_points_from_match_column df team_name).points_from_match.get? i = some p) :
    (p = 0 ∨ p = 1 ∨ p = 3)
    ∧ (r.home_team = team_name →
        (r.home_score > r.away_score → p = 3)
        ∧ (r.home_score = r.away_score → p = 1)
        ∧ (r.home_score < r.away_score → p = 0))
    ∧ (r.home_team ≠ team_name → r.away_team = team_name →
        (r.away_score > r.home_score → p = 3)
        ∧ (r.home_score = r.away_score → p = 1)
        ∧ (r.away_score < r.home_score → p = 0)) := by
  have hcol : (add_points_from_match_column df team_name).points_from_match.get? i
      = Option.map (points_from_match_value team_name) (df.rows.get? i) :=
    List.get?_map _ _ _
  rw [hcol, hr] at hp
  have hval : p = points_from_match_value team_name r := (Option.some.inj hp).symm
  subst hval
  unfold points_from_match_value
  refine ⟨?_, ?_, ?_⟩
  · split_ifs <;> simp
  · intro hh
    rw [if_pos hh]
    refine ⟨?_, ?_, ?_⟩ <;> intro hsc <;> split_ifs <;> omega
  · intro hh ha
    rw [if_neg hh, if_pos ha]
    refine ⟨?_, ?_, ?_⟩ <;> intro hsc <;> split_ifs <;> omega

/-- Witness for C3: row `0` of `points_rule_df` is a home win for `"T"`,
worth `3` points. -/
theorem C3_points_rule_witness :
    ((3 : Nat) = 0 ∨ (3 : Nat) = 1 ∨ (3 : Nat) = 3)
    ∧ ((Match.mk 1 "T" "A" 2 0).home_team = "T" →
        ((Match.mk 1 "T" "A" 2 0).home_score > (Match.mk 1 "T" "A" 2 0).away_score → (3 : Nat) = 3)
        ∧ ((Match.mk 1 "T" "A" 2 0).home_score = (Match.mk 1 "T" "A" 2 0).away_score → (3 : Nat) = 1)
        ∧ ((Match.mk 1 "T" "A" 2 0).home_score < (Match.mk 1 "T" "A" 2 0).away_score → (3 : Nat) = 0))
    ∧ ((Match.mk 1 "T" "A" 2 0).home_team ≠ "T" → (Match.mk 1 "T" "A" 2 0).away_team = "T" →
        ((Match.mk 1 "T" "A" 2 0).away_score > (Match.mk 1 "T" "A" 2 0).home_score → (3 : Nat) = 3)
        ∧ ((Match.mk 1 "T" "A" 2 0).home_score = (Match.mk 1 "T" "A" 2 0).away_score → (3 : Nat) = 1)
        ∧ ((Match.mk 1 "T" "A" 2 0).away_score < (Match.mk 1 "T" "A" 2 0).home_score → (3 : Nat) = 0)) :=
  C3_points_rule points_rule_df "T" 0 (Match.mk 1 "T" "A" 2 0) 3 rfl (by decide)

/-- Claim C4: when fewer than `N` of the team's matches are dated on/after
the first hire date, `add_managerial_change_column` (either hire count)
fails with the positional out-of-range error (`iloc` returns nothing)
instead of producing a truncated window. -/
theorem C4_insufficient_matches_error (df : List Match) (h1 h2 m N : Nat)
    (hm : m = 1 ∨ m = 2)
    (hc : ((df.map Match.match_date).filter (fun d => decide (h1 ≤ d))).length < N) :
    add_managerial_change_column df h1 h2 m N = none := by
  have hN : 1 ≤ N := by omega
  rcases hm with rfl | rfl
  · rw [add_managerial_change_column_one, iloc_nat_sub_one _ _ hN]
    have hsub : ((df.map Match.match_date).filter (fun d => decide (h1 < d))).Sublist
        ((df.map Match.match_date).filter (fun d => decide (h1 ≤ d))) :=
      filter_imp_sublist _ _ _ (fun a ha => by
        simp only [decide_eq_true_eq] at ha ⊢
        omega)
    rw [List.get?_eq_none.mpr (by have := hsub.length_le; omega)]
  · rw [add_managerial_change_column_two, iloc_nat_sub_one _ _ hN,
      List.get?_eq_none.mpr (by omega)]

/-- Witness for C4: `short_df` has no match on/after date `5`. -/
theorem C4_insufficient_matches_error_witness :
    add_managerial_change_column short_df 5 0 1 5 = none :=
  C4_insufficient_matches_error short_df 5 0 1 5 (Or.inl rfl) (by decide)

/-- Claim C5: for the Sunderland configuration (hire date 2015-10-09,
window 5, one hired manager) over any fetched season data whose extracted
Sunderland matches have strictly increasing dates, none dated exactly
2015-10-09, and at least five dated on/after it — all true of the real
2015/16 season, which resumed on 2015-10-17 — the pipeline labels `1`
exactly the five chronologically first matches dated on/after the hire
date, and every windowed date is on/after 2015-10-09. -/
theorem C5_sunderland_bounce_window (fetched : List Match)
    (hs : ((extract_teams_matches_during_season fetched "Sunderland").map
        Match.match_date).Pairwise (· < ·))
    (hne : ∀ d ∈ (extract_teams_matches_during_season fetched "Sunderland").map
        Match.match_date, d ≠ 20151009)
    (hc : 5 ≤ (((extract_teams_matches_during_season fetched "Sunderland").map
        Match.match_date).filter (fun d => decide (20151009 ≤ d))).length) :
    add_manager_change_and_points_won_columns_to_df fetched "Sunderland" 20151009 17530101 1 5
      = some ⟨extract_teams_matches_during_season fetched "Sunderland",
          some ((extract_teams_matches_during_season fetched "Sunderland").map (fun r =>
            if r.match_date ∈ bounce_window
                ((extract_teams_matches_during_season fetched "Sunderland").map
                  Match.match_date) 20151009 5
            then 1 else 0)),
          (extract_teams_matches_during_season fetched "Sunderland").map
            (points_from_match_value "Sunderland")⟩
    ∧ ((extract_teams_matches_during_season fetched "Sunderland").map (fun r =>
        if r.match_date ∈ bounce_window
            ((extract_teams_matches_during_season fetched "Sunderland").map
              Match.match_date) 20151009 5
        then 1 else 0)).count 1 = 5
    ∧ ∀ d ∈ bounce_window ((extract_teams_matches_during_season fetched "Sunderland").map
        Match.match_date) 20151009 5, 20151009 ≤ d := by
  refine ⟨?_, ?_, ?_⟩
  · unfold add_manager_change_and_points_won_columns_to_df
    rw [single_hire_spec _ 20151009 17530101 5 hs hne (by omega) hc]
    rfl
  · rw [count_one_map_label]
    have hwin : (bounce_window ((extract_teams_matches_during_season fetched
        "Sunderland").map Match.match_date) 20151009 5).Sublist
        ((extract_teams_matches_during_season fetched "Sunderland").map Match.match_date) :=
      (List.take_sublist _ _).trans (List.filter_sublist _)
    rw [countP_mem_eq_length _ _ hwin (hs.imp (fun hab => Nat.ne_of_lt hab))]
    unfold bounce_window
    rw [List.length_take]
    exact Nat.min_eq_left hc
  · intro d hd
    have hm := (List.take_sublist _ _).subset hd
    simpa using (List.mem_filter.mp hm).2

/-- Witness for C5 on the concrete season data `sunderland_season_df`. -/
theorem C5_sunderland_bounce_window_witness :
    add_manager_change_and_points_won_columns_to_df sunderland_season_df "Sunderland"
        20151009 17530101 1 5
      = some ⟨extract_teams_matches_during_season sunderland_season_df "Sunderland",
          some ((extract_teams_matches_during_season sunderland_season_df "Sunderland").map
            (fun r => if r.match_date ∈ bounce_window
                ((extract_teams_matches_during_season sunderland_season_df "Sunderland").map
                  Match.match_date) 20151009 5
              then 1 else 0)),
          (extract_teams_matches_during_season sunderland_season_df "Sunderland").map
            (points_from_match_value "Sunderland")⟩
    ∧ ((extract_teams_matches_during_season sunderland_season_df "Sunderland").map (fun r =>
        if r.match_date ∈ bounce_window
            ((extract_teams_matches_during_season sunderland_season_df "Sunderland").map
              Match.match_date) 20151009 5
        then 1 else 0)).count 1 = 5
    ∧ ∀ d ∈ bounce_window ((extract_teams_matches_during_season sunderland_season_df
        "Sunderland").map Match.match_date) 20151009 5, 20151009 ≤ d :=
  C5_sunderland_bounce_window sunderland_season_df (by decide) (by decide) (by decide)

/-- Claim C6: the chart's PPG value for each label group is the unweighted
arithmetic mean of exactly that group's `points_from_match` values, and
the annotated sample size is exactly that group's match count. -/
theorem C6_chart_mean_and_sizes (df : FullDF) (labels : List Nat)
    (hl : df.is_manager_bounce = some labels) :
    npMean (loc_points_with_label df 1)
        = ((spec_group_points labels df.points_from_match 1).sum : ℚ)
          / (spec_group_points labels df.points_from_match 1).length
    ∧ npMean (loc_points_with_label df 0)
        = ((spec_group_points labels df.points_from_match 0).sum : ℚ)
          / (spec_group_points labels df.points_from_match 0).length
    ∧ (loc_points_with_label df 1).length
        = (spec_group_points labels df.points_from_match 1).length
    ∧ (loc_points_with_label df 0).length
        = (spec_group_points labels df.points_from_match 0).length := by
  rw [loc_points_eq_spec_group df labels 1 hl, loc_points_eq_spec_group df labels 0 hl]
  exact ⟨rfl, rfl, rfl, rfl⟩

/-- Witness for C6 on `chart_df` (labels `[1, 0, 1]`, points `[3, 0, 1]`). -/
theorem C6_chart_mean_and_sizes_witness :
    npMean (loc_points_with_label chart_df 1)
        = ((spec_group_points [1, 0, 1] chart_df.points_from_match 1).sum : ℚ)
          / (spec_group_points [1, 0, 1] chart_df.points_from_match 1).length
    ∧ npMean (loc_points_with_label chart_df 0)
        = ((spec_group_points [1, 0, 1] chart_df.points_from_match 0).sum : ℚ)
          / (spec_group_points [1, 0, 1] chart_df.points_from_match 0).length
    ∧ (loc_points_with_label chart_df 1).length
        = (spec_group_points [1, 0, 1] chart_df.points_from_match 1).length
    ∧ (loc_points_with_label chart_df 0).length
        = (spec_group_points [1, 0, 1] chart_df.points_from_match 0).length :=
  C6_chart_mean_and_sizes chart_df [1, 0, 1] rfl

/-- Claim C7: the labelling-and-points pipeline is deterministic — two
runs of `add_manager_change_and_points_won_columns_to_df` on the same
fetched data and configuration produce identical `is_manager_bounce`
labels and identical `points_from_match` values. -/
theorem C7_pipeline_deterministic (all_matches : List Match) (team_name : String)
    (h1 h2 m N : Nat) :
    (add_manager_change_and_points_won_columns_to_df all_matches team_name h1 h2 m N).map
        FullDF.is_manager_bounce
      = (add_manager_change_and_points_won_columns_to_df all_matches team_name h1 h2 m N).map
        FullDF.is_manager_bounce
    ∧ (add_manager_change_and_points_won_columns_to_df all_matches team_name h1 h2 m N).map
        FullDF.points_from_match
      = (add_manager_change_and_points_won_columns_to_df all_matches team_name h1 h2 m N).map
        FullDF.points_from_match :=
  ⟨rfl, rfl⟩

/-- Claim C8: with a manager count other than `1` or `2`,
`add_managerial_change_column` raises nothing and returns the dataframe
unchanged, without an `is_manager_bounce` column. -/
theorem C8_unknown_manager_count_identity (df : List Match) (h1 h2 m N : Nat)
    (hm1 : m ≠ 1) (hm2 : m ≠ 2) :
    add_managerial_change_column df h1 h2 m N = some ⟨df, none⟩ := by
  unfold add_managerial_change_column
  rw [if_neg hm1, if_neg hm2]

/-- Witness for C8 with manager count `3`. -/
theorem C8_unknown_manager_count_identity_witness :
    add_managerial_change_column frame_df 1 2 3 5 = some ⟨frame_df, none⟩ :=
  C8_unknown_manager_count_identity frame_df 1 2 3 5 (by decide) (by decide)

/-- Claim C9: a row in which the named team is neither the home nor the
away side keeps the initialised `points_from_match` value `0`. -/
theorem C9_uninvolved_team_zero_points (df : LabeledDF) (team_name : String) (i : Nat)
    (r : Match) (p : Nat)
    (hr : df.rows.get? i = some r)
    (hh : r.home_team ≠ team_name) (ha : r.away_team ≠ team_name)
    (hp : (add_points_from_match_column df team_name).points_from_match.get? i = some p) :
    p = 0 := by
  have hcol : (add_points_from_match_column df team_name).points_from_match.get? i
      = Option.map (points_from_match_value team_name) (df.rows.get? i) :=
    List.get?_map _ _ _
  rw [hcol, hr] at hp
  have hval : p = points_from_match_value team_name r := (Option.some.inj hp).symm
  subst hval
  unfold points_from_match_value
  rw [if_neg hh, if_neg ha]

/-- Witness for C9: the only row of `stranger_df` involves neither side
of team `"T"`. -/
theorem C9_uninvolved_team_zero_points_witness :
    (add_points_from_match_column stranger_df "T").points_from_match.get? 0 = some 0
    ∧ (0 : Nat) = 0 :=
  ⟨rfl, C9_uninvolved_team_zero_points stranger_df "T" 0 (Match.mk 1 "X" "Y" 2 0) 0 rfl
    (by decide) (by decide) rfl⟩

/-- Claim C10: both column-adding operations are frame-preserving — the
label step returns the input rows untouched, and the points step keeps
both the rows and the `is_manager_bounce` column, each adding only its
own column. -/
theorem C10_frame_preservation (df : List Match) (h1 h2 m N : Nat) (ldf : LabeledDF)
    (team_name : String)
    (h : add_managerial_change_column df h1 h2 m N = some ldf) :
    ldf.rows = df
    ∧ (add_points_from_match_column ldf team_name).rows = ldf.rows
    ∧ (add_points_from_match_column ldf team_name).is_manager_bounce
        = ldf.is_manager_bounce := by
  refine ⟨?_, rfl, rfl⟩
  unfold add_managerial_change_column at h
  split_ifs at h
  · split at h
    · exact Option.noConfusion h
    · injection h with h
      subst h
      rfl
  · split at h
    · exact Option.noConfusion h
    · split at h
      · exact Option.noConfusion h
      · injection h with h
        subst h
        rfl
  · injection h with h
    subst h
    rfl

/-- Witness for C10 with manager count `3` on `frame_df`. -/
theorem C10_frame_preservation_witness :
    ({ rows := frame_df, is_manager_bounce := none } : LabeledDF).rows = frame_df
    ∧ (add_points_from_match_column ⟨frame_df, none⟩ "T").rows
        = ({ rows := frame_df, is_manager_bounce := none } : LabeledDF).rows
    ∧ (add_points_from_match_column ⟨frame_df, none⟩ "T").is_manager_bounce
        = ({ rows := frame_df, is_manager_bounce := none } : LabeledDF).is_manager_bounce :=
  C10_frame_preservation frame_df 1 2 3 5 ⟨frame_df, none⟩ "T" rfl

end NMB
